import Mathlib

/-!
Verification of the playback-controller core of `src/components/MusicPlayer.tsx`.

The component is shallowly embedded: React state hooks become fields of
`PlayerState`, the event handlers registered by the track-load effect become a
function from adapter events to lists of primitive actions, and the effect
mechanism (re-run on dependency change, cleanup removing the previous run's
listeners) is modelled by a generation counter `gen` that counts effect runs:
an event produced by the load of run `g` reaches handlers only while `g` is the
current run, because the cleanup of run `g` removes its listeners and the
`load()` issued by run `g+1` aborts run `g`'s pending fetch.  Numbers are
modelled by `ℚ`; the JavaScript non-finite values needed by `formatTime` are
modelled by a dedicated `JSNum` type.
-/

/-- `clamp` from MusicPlayer.tsx line 26: `Math.max(min, Math.min(max, n))`. -/
def clamp (n min max : ℚ) : ℚ := Max.max min (Min.min max n)

/-- JavaScript numbers as far as `formatTime` distinguishes them: the
non-finite values and a finite value modelled by a rational. -/
inductive JSNum where
  | nan
  | posInf
  | negInf
  | num (q : ℚ)
deriving DecidableEq

/-- JS `String.prototype.padStart(2, "0")`. -/
def padStart2 (t : String) : String :=
  String.mk (List.replicate (2 - t.length) '0') ++ t

/-- JS `%` (remainder) for a non-negative dividend and positive divisor:
`q % n = q - n * Math.floor(q / n)`. -/
def jsMod (q n : ℚ) : ℚ := q - n * (Int.floor (q / n) : ℚ)

/-- Minutes field of `formatTime` for a finite non-negative input:
`Math.floor(sec / 60)`. -/
def minutesOf (q : ℚ) : Nat := (Int.floor (q / 60)).toNat

/-- Seconds field of `formatTime` for a finite non-negative input:
`Math.floor(sec % 60)`. -/
def secondsOf (q : ℚ) : Nat := (Int.floor (jsMod q 60)).toNat

/-- `formatTime` from MusicPlayer.tsx lines 30-35.  `!isFinite(sec)` is true
exactly on `nan`, `posInf`, `negInf`. -/
def formatTime : JSNum → String
  | .nan => "0:00"
  | .posInf => "0:00"
  | .negInf => "0:00"
  | .num q =>
      if q < 0 then "0:00"
      else Nat.repr (minutesOf q) ++ ":" ++ padStart2 (Nat.repr (secondsOf q))

/-- Track record (MusicPlayer.tsx lines 15-22). -/
structure Track where
  id : String
  title : String
  artist : String
  coverUrl : Option String := none
  audioUrl : String
  durationHint : Option ℚ := none
deriving DecidableEq

/-- The hard-coded playlist (MusicPlayer.tsx lines 99-117). -/
def defaultTracks : List Track :=
  [ { id := "t1", title := "Awesome Song Title", artist := "Amazing Artist",
      audioUrl := "https://cdn.pixabay.com/download/audio/2022/03/15/audio_2b1fe7a2ab.mp3?filename=future-bass-logo-19442.mp3" },
    { id := "t2", title := "Second Track", artist := "Another Artist",
      audioUrl := "https://cdn.pixabay.com/download/audio/2022/10/03/audio_1d2c1b0f2a.mp3?filename=ambient-piano-logo-12047.mp3" } ]

inductive PlayerStatus where
  | paused
  | loading
  | playing
deriving DecidableEq

/-- Commands the component issues to the audio element (the adapter). -/
inductive AdapterCmd where
  | load (src : String)
  | play
  | pause
  | seek (t : ℚ)
  | setGain (v : ℚ)
deriving DecidableEq

/-- The React state of `MusicPlayer` (MusicPlayer.tsx lines 121-131) plus
`gen`, the number of times the track-load effect has run; the handlers active
at any time are exactly those registered by run `gen`. -/
structure PlayerState where
  tracks : List Track
  index : Nat
  status : PlayerStatus
  isShuffle : Bool
  isRepeat : Bool
  current : ℚ
  duration : ℚ
  volume : ℚ
  gen : Nat
deriving DecidableEq

/-- Initial hook values (MusicPlayer.tsx lines 121-131): `useState(0)` for the
index, `"paused"`, both mode flags false, times 0, volume 0.8.  No validation
of `tracks` happens anywhere in the component: construction is total. -/
def mkPlayer (tracks : List Track) : PlayerState :=
  { tracks := tracks, index := 0, status := .paused, isShuffle := false,
    isRepeat := false, current := 0, duration := 0, volume := 4/5, gen := 0 }

/-- `const track = tracks[index]` (line 122): `undefined` out of range. -/
def currentTrack? (s : PlayerState) : Option Track := s.tracks.get? s.index

/-- Dependency list of the track-load effect (line 181):
`[index, track.audioUrl, isRepeat]`.  `track.audioUrl` throws when
`tracks[index]` is `undefined`, hence the `Option`. -/
def effectDeps (s : PlayerState) : Option (Nat × String × Bool) :=
  (currentTrack? s).map (fun t => (s.index, t.audioUrl, s.isRepeat))

/-- The body of the track-load effect (MusicPlayer.tsx lines 134-144): set
status to loading, reset both times to 0, set the source and call `load()`.
Registering the run's listeners is modelled by bumping `gen`.  Reading
`track.audioUrl` of `undefined` is a TypeError, modelled by `Except.error`. -/
def runLoadEffect (s : PlayerState) : Except String (PlayerState × List AdapterCmd) :=
  match currentTrack? s with
  | none => .error "TypeError: tracks[index] is undefined"
  | some t =>
      .ok ({ s with status := .loading, current := 0, duration := 0, gen := s.gen + 1 },
           [.load t.audioUrl])

/-- `selectTrack(i)`: set the index; React then re-runs the load effect
because dependency `index` changed. -/
def selectTrack (i : Nat) (s : PlayerState) : Except String (PlayerState × List AdapterCmd) :=
  runLoadEffect { s with index := i }

/-- Sequential `next` (MusicPlayer.tsx line 213): `(i + 1) % tracks.length`. -/
def nextIndexSeq (len i : Nat) : Nat := (i + 1) % len

/-- Sequential `prev` (MusicPlayer.tsx line 206):
`(i - 1 + tracks.length) % tracks.length`; for `i ≥ 0` and `len ≥ 1` the JS
integer `i - 1 + len` equals the natural number `i + len - 1`. -/
def prevIndexSeq (len i : Nat) : Nat := (i + len - 1) % len

/-- `pickRandomNext` (MusicPlayer.tsx lines 195-201).  The successive values
of `Math.floor(Math.random() * tracks.length)` are supplied as `draws`; the
while loop returns the first draw different from the current index, and
diverges (`none`) if no such draw ever appears. -/
def pickRandomNext (len i : Nat) (draws : List Nat) : Option Nat :=
  if len ≤ 1 then some i
  else draws.find? (fun d => d ≠ i)

/-- `next()` (lines 210-215): shuffle takes a random pick, otherwise
sequential.  `none` only when the shuffle loop diverges. -/
def nextIndex (s : PlayerState) (draws : List Nat) : Option Nat :=
  if s.isShuffle then pickRandomNext s.tracks.length s.index draws
  else some (nextIndexSeq s.tracks.length s.index)

/-- `prev()` (lines 203-208): shuffle takes a random pick, otherwise
sequential. -/
def prevIndex (s : PlayerState) (draws : List Nat) : Option Nat :=
  if s.isShuffle then pickRandomNext s.tracks.length s.index draws
  else some (prevIndexSeq s.tracks.length s.index)

/-- Primitive steps an event handler performs, in source order: React state
setters and adapter calls. -/
inductive HandlerAct where
  | setStatus (st : PlayerStatus)
  | setCurrent (t : ℚ)
  | setDuration (d : ℚ)
  | setIndex (i : Nat)
  | adapter (c : AdapterCmd)
deriving DecidableEq

/-- JS `a || b` on numbers (falsy = 0 here; NaN is excluded by the model). -/
def jsOr (a b : ℚ) : ℚ := if a = 0 then b else a

/-- Adapter events, with the payloads the handlers read from the element. -/
inductive AdapterEvent where
  | loadedMetadata (d : ℚ)
  | timeUpdate (t : ℚ)
  | ended
  | waiting (adapterPaused : Bool)
  | playing
  | pause
deriving DecidableEq

/-- The actions of each handler registered by the load effect
(MusicPlayer.tsx lines 145-163), in source order.
`onLoaded`: `setDuration(a.duration || track.durationHint || 0)` then
`setStatus("paused")`.  `onTime`: `setCurrent(a.currentTime || 0)`.
`onEnded`: with repeat, `a.currentTime = 0; a.play(); setStatus("playing")`;
otherwise `next()`.  `onWaiting`: `if (!a.paused) setStatus("loading")`.
`draws` feeds the shuffle loop inside `next()`. -/
def eventActions (s : PlayerState) (draws : List Nat) : AdapterEvent → List HandlerAct
  | .loadedMetadata d =>
      [.setDuration (jsOr d (jsOr (((currentTrack? s).bind Track.durationHint).getD 0) 0)),
       .setStatus .paused]
  | .timeUpdate t => [.setCurrent (jsOr t 0)]
  | .ended =>
      if s.isRepeat then
        [.adapter (.seek 0), .adapter .play, .setStatus .playing]
      else
        match nextIndex s draws with
        | some i => [.setIndex i]
        | none => []
  | .waiting adapterPaused =>
      if adapterPaused then [] else [.setStatus .loading]
  | .playing => [.setStatus .playing]
  | .pause => [.setStatus .paused]

def applyAction (s : PlayerState) : HandlerAct → PlayerState
  | .setStatus st => { s with status := st }
  | .setCurrent t => { s with current := t }
  | .setDuration d => { s with duration := d }
  | .setIndex i => { s with index := i }
  | .adapter _ => s

def applyActions (s : PlayerState) (acts : List HandlerAct) : PlayerState :=
  acts.foldl applyAction s

def actionCmds (acts : List HandlerAct) : List AdapterCmd :=
  acts.filterMap (fun a => match a with | .adapter c => some c | _ => none)

/-- Delivery of an adapter event produced by the load of effect run `evGen`.
The cleanup of run `evGen` removed that run's listeners and the next run's
`load()` aborted its fetch, so the handlers fire only while `evGen` is still
the current run; otherwise the event is discarded. -/
def handleEvent (evGen : Nat) (e : AdapterEvent) (draws : List Nat)
    (s : PlayerState) : PlayerState × List AdapterCmd :=
  if evGen = s.gen then
    (applyActions s (eventActions s draws e), actionCmds (eventActions s draws e))
  else (s, [])

/-- First half of `togglePlay` (MusicPlayer.tsx lines 217-231) when the
adapter reports paused: set status to loading and call `play()`.  When not
paused: call `pause()`. -/
def togglePlayStart (adapterPaused : Bool) (s : PlayerState) :
    PlayerState × List AdapterCmd :=
  if adapterPaused then ({ s with status := .loading }, [.play])
  else (s, [.pause])

/-- The `catch` branch of `togglePlay`: `play()` rejected, revert to paused.
No further adapter command is issued. -/
def onPlayRejected (s : PlayerState) : PlayerState × List AdapterCmd :=
  ({ s with status := .paused }, [])

/-- `seekTo` (MusicPlayer.tsx lines 233-239): no-op when `!duration`;
otherwise `t = clamp(p, 0, 1) * duration`, `a.currentTime = t`,
`setCurrent(t)`. -/
def seekTo (p : ℚ) (s : PlayerState) : PlayerState × List AdapterCmd :=
  if s.duration = 0 then (s, [])
  else
    ({ s with current := clamp p 0 1 * s.duration },
     [.seek (clamp p 0 1 * s.duration)])

/-- `setVolume` stores the raw slider value (line 131 / 466). -/
def setVolume (v : ℚ) (s : PlayerState) : PlayerState := { s with volume := v }

/-- The volume effect (MusicPlayer.tsx lines 184-188):
`a.volume = clamp(volume, 0, 1)`, run whenever `volume` changes, regardless of
`status`. -/
def volumeEffect (s : PlayerState) : List AdapterCmd :=
  [.setGain (clamp s.volume 0 1)]

/-- `setIsRepeat((v) => !v)` (line 442). -/
def toggleRepeat (s : PlayerState) : PlayerState := { s with isRepeat := !s.isRepeat }

/-- React: the track-load effect re-runs exactly when its dependency list
changed from the previous render. -/
def reactEffectStep (prev s : PlayerState) : Except String (PlayerState × List AdapterCmd) :=
  if effectDeps s ≠ effectDeps prev then runLoadEffect s else .ok (s, [])

lemma nextIndexSeq_iterate (L i k : Nat) (h : i < L) :
    (nextIndexSeq L)^[k] i = (i + k) % L := by
  induction k with
  | zero => simpa using (Nat.mod_eq_of_lt h).symm
  | succ k ih =>
      rw [Function.iterate_succ_apply', ih, nextIndexSeq, Nat.mod_add_mod,
        Nat.add_assoc]

lemma clamp01_nonneg (p : ℚ) : 0 ≤ clamp p 0 1 := le_max_left 0 _

lemma clamp01_le_one (p : ℚ) : clamp p 0 1 ≤ 1 :=
  max_le zero_le_one (min_le_left 1 p)

/-- C3: in sequential mode `next` sends index `i` to `(i + 1) mod L`, `prev`
sends it to `(i - 1 + L) mod L`, and iterating `next` `L` times is the
identity on indices of a queue of length `L ≥ 2`. -/
theorem seq_navigation_modular (L i : Nat) (h : i < L) :
    nextIndexSeq L i = (i + 1) % L ∧
    prevIndexSeq L i = (i + L - 1) % L ∧
    (2 ≤ L → (nextIndexSeq L)^[L] i = i) := by
  refine ⟨rfl, rfl, fun _ => ?_⟩
  rw [nextIndexSeq_iterate L i L h, Nat.add_mod_right, Nat.mod_eq_of_lt h]

/-- Witness for `seq_navigation_modular` at `L = 3`, `i = 1`. -/
theorem seq_navigation_modular_witness :
    nextIndexSeq 3 1 = (1 + 1) % 3 ∧ prevIndexSeq 3 1 = (1 + 3 - 1) % 3 ∧
    (nextIndexSeq 3)^[3] 1 = 1 :=
  ⟨(seq_navigation_modular 3 1 (by decide)).1,
   (seq_navigation_modular 3 1 (by decide)).2.1,
   (seq_navigation_modular 3 1 (by decide)).2.2 (by decide)⟩

/-- C4: with more than one track, any index returned by `pickRandomNext`
differs from the pre-call index and lies in `[0, length)` (given that each
random draw lies in `[0, length)`); a result exists as soon as some draw
differs from the current index; with one track the pick is a no-op on the
index; and under shuffle `prev()` computes exactly what `next()` computes. -/
theorem shuffle_pick_fresh :
    (∀ (len i j : Nat) (draws : List Nat), 1 < len →
      (∀ d ∈ draws, d < len) →
      pickRandomNext len i draws = some j → j ≠ i ∧ j < len) ∧
    (∀ (len i : Nat) (draws : List Nat), 1 < len →
      (∃ d ∈ draws, d ≠ i) →
      ∃ j, pickRandomNext len i draws = some j ∧ j ≠ i) ∧
    (∀ (i : Nat) (draws : List Nat), pickRandomNext 1 i draws = some i) ∧
    (∀ (s : PlayerState) (draws : List Nat), s.isShuffle = true →
      prevIndex s draws = nextIndex s draws) := by
  refine ⟨?_, ?_, ?_, ?_⟩
  · intro len i j draws hlen hb hpick
    rw [pickRandomNext, if_neg (by omega)] at hpick
    have hj := List.find?_some hpick
    have hmem : j ∈ draws := List.mem_of_find?_eq_some hpick
    exact ⟨by simpa using hj, hb j hmem⟩
  · intro len i draws hlen hex
    rw [pickRandomNext, if_neg (by omega)]
    obtain ⟨d, hd, hdi⟩ := hex
    have : (draws.find? (fun d => d ≠ i)).isSome := by
      rw [List.find?_isSome]
      exact ⟨d, hd, by simpa using hdi⟩
    obtain ⟨j, hj⟩ := Option.isSome_iff_exists.mp this
    exact ⟨j, hj, by simpa using List.find?_some hj⟩
  · intro i draws
    rw [pickRandomNext, if_pos (by omega)]
  · intro s draws hsh
    rw [prevIndex, nextIndex, if_pos hsh, if_pos hsh]

/-- Witness for `shuffle_pick_fresh`: two tracks, draws `[0, 1]` from index
`0` give index `1`; one track is a no-op. -/
theorem shuffle_pick_fresh_witness :
    (1 ≠ 0 ∧ 1 < 2) ∧ pickRandomNext 1 5 [] = some 5 :=
  ⟨shuffle_pick_fresh.1 2 0 1 [0, 1] (by decide) (by decide) (by decide),
   shuffle_pick_fresh.2.2.1 5 []⟩

/-- C5: `seekTo(p)` is a no-op (state and adapter untouched) while duration
is unknown (0); otherwise it sets `currentTime` to `clamp(p,0,1) * duration`,
issues exactly one adapter seek to that time, and the resulting `currentTime`
lies in `[0, duration]`. -/
theorem seekTo_clamped (s : PlayerState) (p : ℚ) (hd : 0 ≤ s.duration) :
    (s.duration = 0 → seekTo p s = (s, [])) ∧
    (s.duration ≠ 0 →
      seekTo p s =
        ({ s with current := clamp p 0 1 * s.duration },
         [.seek (clamp p 0 1 * s.duration)]) ∧
      0 ≤ (seekTo p s).1.current ∧ (seekTo p s).1.current ≤ (seekTo p s).1.duration) := by
  constructor
  · intro h0
    rw [seekTo, if_pos h0]
  · intro hne
    have heq : seekTo p s =
        ({ s with current := clamp p 0 1 * s.duration },
         [.seek (clamp p 0 1 * s.duration)]) := by
      rw [seekTo, if_neg hne]
    have hpos : 0 < s.duration := lt_of_le_of_ne hd (Ne.symm hne)
    refine ⟨heq, ?_, ?_⟩
    · rw [heq]
      exact mul_nonneg (clamp01_nonneg p) hd
    · rw [heq]
      calc clamp p 0 1 * s.duration ≤ 1 * s.duration :=
            mul_le_mul_of_nonneg_right (clamp01_le_one p) hd
        _ = s.duration := one_mul _

/-- Witness for `seekTo_clamped`: duration 10 known, `p = 2` clamps to
`currentTime = 10`; duration 0 leaves the state untouched. -/
theorem seekTo_clamped_witness :
    seekTo 2 { mkPlayer defaultTracks with duration := 10 } =
      ({ mkPlayer defaultTracks with duration := 10, current := clamp 2 0 1 * 10 },
       [.seek (clamp 2 0 1 * 10)]) ∧
    seekTo 2 (mkPlayer defaultTracks) = (mkPlayer defaultTracks, []) :=
  ⟨((seekTo_clamped { mkPlayer defaultTracks with duration := 10 } 2
      (by norm_num)).2 (by norm_num)).1,
   (seekTo_clamped (mkPlayer defaultTracks) 2 le_rfl).1 rfl⟩

/-- C6: the gain the volume effect hands to the adapter is always
`clamp(v, 0, 1) ∈ [0, 1]`; in particular `-0.5 ↦ 0` and `1.7 ↦ 1`; and the
effect reads only `volume`, so the command is the same whatever the transport
status is. -/
theorem setVolume_clamps :
    (∀ v : ℚ, 0 ≤ clamp v 0 1 ∧ clamp v 0 1 ≤ 1) ∧
    clamp (-(1/2)) 0 1 = 0 ∧ clamp (17/10) 0 1 = 1 ∧
    (∀ (s : PlayerState) (v : ℚ) (st : PlayerStatus),
      volumeEffect { setVolume v s with status := st } = [.setGain (clamp v 0 1)]) := by
  refine ⟨fun v => ⟨clamp01_nonneg v, clamp01_le_one v⟩, ?_, ?_, ?_⟩
  · rw [clamp]
    norm_num
  · rw [clamp]
    norm_num
  · intro s v st
    rfl

lemma jsMod_sixty_bounds (q : ℚ) :
    0 ≤ jsMod q 60 ∧ jsMod q 60 < 60 := by
  have h1 : (Int.floor (q / 60) : ℚ) ≤ q / 60 := Int.floor_le _
  have h2 : q / 60 < Int.floor (q / 60) + 1 := Int.lt_floor_add_one _
  constructor
  · rw [jsMod]
    nlinarith
  · rw [jsMod]
    nlinarith

lemma secondsOf_lt_sixty (q : ℚ) : secondsOf q < 60 := by
  obtain ⟨hlo, hhi⟩ := jsMod_sixty_bounds q
  have hf : Int.floor (jsMod q 60) < 60 := by
    rw [Int.floor_lt]
    exact_mod_cast hhi
  rw [secondsOf]
  omega

lemma padStart2_two_digits (n : Nat) (h : n < 60) :
    (padStart2 (Nat.repr n)).length = 2 := by
  revert n
  decide

/-- C7: `formatTime` maps every non-finite input and every negative finite
input to `"0:00"`, maps `0 ↦ "0:00"`, `65 ↦ "1:05"`, `-3 ↦ "0:00"`, and
renders every non-negative finite input as `M:SS`: the minute field
`Math.floor(sec / 60)` followed by the seconds field `Math.floor(sec % 60)`,
which is below 60 and zero-padded to exactly two digits. -/
theorem formatTime_spec :
    formatTime .nan = "0:00" ∧ formatTime .posInf = "0:00" ∧
    formatTime .negInf = "0:00" ∧
    (∀ q : ℚ, q < 0 → formatTime (.num q) = "0:00") ∧
    formatTime (.num 0) = "0:00" ∧ formatTime (.num 65) = "1:05" ∧
    formatTime (.num (-3)) = "0:00" ∧
    (∀ q : ℚ, 0 ≤ q →
      formatTime (.num q) =
        Nat.repr (minutesOf q) ++ ":" ++ padStart2 (Nat.repr (secondsOf q)) ∧
      secondsOf q < 60 ∧ (padStart2 (Nat.repr (secondsOf q))).length = 2) := by
  refine ⟨rfl, rfl, rfl, ?_, ?_, ?_, ?_, ?_⟩
  · intro q hq
    rw [formatTime, if_pos hq]
  · have hm : minutesOf 0 = 0 := by norm_num [minutesOf]
    have hs : secondsOf 0 = 0 := by
      have h : Int.floor (jsMod 0 60) = 0 := by norm_num [jsMod]
      rw [secondsOf, h]
      rfl
    simp only [formatTime, if_neg (by norm_num : ¬(0 : ℚ) < 0), hm, hs]
    rfl
  · have hm : minutesOf 65 = 1 := by norm_num [minutesOf]
    have hs : secondsOf 65 = 5 := by
      have h : Int.floor (jsMod 65 60) = 5 := by norm_num [jsMod]
      rw [secondsOf, h]
      rfl
    simp only [formatTime, if_neg (by norm_num : ¬(65 : ℚ) < 0), hm, hs]
    rfl
  · simp only [formatTime, if_pos (by norm_num : (-3 : ℚ) < 0)]
  · intro q hq
    refine ⟨?_, secondsOf_lt_sixty q, padStart2_two_digits _ (secondsOf_lt_sixty q)⟩
    rw [formatTime, if_neg (not_lt.mpr hq)]

/-- Witness for `formatTime_spec`: `-5 ↦ "0:00"`, and for `125` the seconds
field is below 60 with a two-digit rendering. -/
theorem formatTime_spec_witness :
    formatTime (.num (-5)) = "0:00" ∧
    (secondsOf 125 < 60 ∧ (padStart2 (Nat.repr (secondsOf 125))).length = 2) :=
  ⟨formatTime_spec.2.2.2.1 (-5) (by norm_num),
   (formatTime_spec.2.2.2.2.2.2.2 125 (by norm_num)).2⟩

lemma selectTrack_ok (i : Nat) (s s' : PlayerState) (c : List AdapterCmd)
    (h : selectTrack i s = .ok (s', c)) :
    s'.gen = s.gen + 1 ∧ s'.index = i ∧ s'.duration = 0 ∧ s'.current = 0 ∧
    s'.status = .loading ∧ s'.tracks = s.tracks := by
  rw [selectTrack, runLoadEffect] at h
  cases hc : currentTrack? { s with index := i } with
  | none => rw [hc] at h; cases h
  | some t =>
      rw [hc] at h
      cases h
      exact ⟨rfl, rfl, rfl, rfl, rfl, rfl⟩

lemma handleEvent_stale (g : Nat) (e : AdapterEvent) (dr : List Nat)
    (s : PlayerState) (h : g ≠ s.gen) : handleEvent g e dr s = (s, []) := by
  rw [handleEvent, if_neg h]

/-- C1: `selectTrack` bumps the generation (`selectTrack(0)` then
`selectTrack(1)` yields strictly increasing generations), any event carrying
a generation other than the current one is discarded, so the stale
generation-0 `loadedmetadata` leaves the state (duration 0 after the
generation-1 load) untouched, while the generation-1 `loadedmetadata` with
duration `d' ≠ 0` makes the snapshot's duration `d'`. -/
theorem stale_metadata_discarded (s s0 s1 : PlayerState)
    (c0 c1 : List AdapterCmd) (d d' : ℚ) (draws draws' : List Nat)
    (h0 : selectTrack 0 s = .ok (s0, c0))
    (h1 : selectTrack 1 s0 = .ok (s1, c1))
    (hd' : d' ≠ 0) :
    s0.gen = s.gen + 1 ∧ s1.gen = s0.gen + 1 ∧
    (∀ (g : Nat) (e : AdapterEvent) (dr : List Nat), g ≠ s1.gen →
      handleEvent g e dr s1 = (s1, [])) ∧
    handleEvent s0.gen (.loadedMetadata d) draws s1 = (s1, []) ∧
    s1.duration = 0 ∧
    (handleEvent s1.gen (.loadedMetadata d') draws' s1).1.duration = d' := by
  obtain ⟨hg0, -, -, -, -, -⟩ := selectTrack_ok 0 s s0 c0 h0
  obtain ⟨hg1, -, hdur1, -, -, -⟩ := selectTrack_ok 1 s0 s1 c1 h1
  have hne : s0.gen ≠ s1.gen := by omega
  refine ⟨hg0, hg1, fun g e dr hg => handleEvent_stale g e dr s1 hg,
    handleEvent_stale _ _ _ _ hne, hdur1, ?_⟩
  rw [handleEvent, if_pos rfl, eventActions]
  simp [applyActions, applyAction, jsOr, hd']

/-- Witness for `stale_metadata_discarded`: the concrete double
`selectTrack(0)`/`selectTrack(1)` run from the freshly constructed player. -/
theorem stale_metadata_discarded_witness :
    ({ mkPlayer defaultTracks with index := 0, status := .loading, gen := 1 } : PlayerState).gen = (mkPlayer defaultTracks).gen + 1 ∧
    handleEvent 1 (.loadedMetadata 7) [] { mkPlayer defaultTracks with index := 1, status := .loading, gen := 2 } =
      ({ mkPlayer defaultTracks with index := 1, status := .loading, gen := 2 }, []) ∧
    ({ mkPlayer defaultTracks with index := 1, status := .loading, gen := 2 } : PlayerState).duration = 0 ∧
    (handleEvent 2 (.loadedMetadata 9) [] { mkPlayer defaultTracks with index := 1, status := .loading, gen := 2 }).1.duration = 9 := by
  have h := stale_metadata_discarded (mkPlayer defaultTracks)
      { mkPlayer defaultTracks with index := 0, status := .loading, gen := 1 }
      { mkPlayer defaultTracks with index := 1, status := .loading, gen := 2 }
      [.load "https://cdn.pixabay.com/download/audio/2022/03/15/audio_2b1fe7a2ab.mp3?filename=future-bass-logo-19442.mp3"]
      [.load "https://cdn.pixabay.com/download/audio/2022/10/03/audio_1d2c1b0f2a.mp3?filename=ambient-piano-logo-12047.mp3"]
      7 9 [] [] rfl rfl (by norm_num)
  exact ⟨h.1, h.2.2.2.1, h.2.2.2.2.1, h.2.2.2.2.2⟩

/-- Counterexample to C2: constructing the player with zero tracks is not
rejected — `mkPlayer []` succeeds and produces an ordinary initial state
(there is no validation anywhere in the component), and the failure surfaces
only later, as a runtime TypeError when `tracks[index]` is dereferenced by
the load effect, with `current()` resolving to no track at all. -/
theorem emptyQueue_no_failfast :
    mkPlayer [] = { tracks := [], index := 0, status := .paused, isShuffle := false, isRepeat := false, current := 0, duration := 0, volume := 4/5, gen := 0 } ∧
    currentTrack? (mkPlayer []) = none ∧
    runLoadEffect (mkPlayer []) = .error "TypeError: tracks[index] is undefined" :=
  ⟨rfl, rfl, rfl⟩

/-- C2 (amended): the component performs no construction-time validation —
with zero tracks construction still succeeds and the failure is a later
runtime TypeError at the first track dereference; for every non-empty queue
the freshly constructed state resolves `current()` to exactly one track, and
so does any state whose index is in range. -/
theorem construction_unvalidated (tracks : List Track) (htr : tracks ≠ [])
    (s : PlayerState) (hidx : s.index < s.tracks.length) :
    (∃! t, currentTrack? (mkPlayer tracks) = some t) ∧
    (∃! t, currentTrack? s = some t) ∧
    runLoadEffect (mkPlayer []) = .error "TypeError: tracks[index] is undefined" := by
  refine ⟨?_, ?_, rfl⟩
  · obtain ⟨t, ts, rfl⟩ := List.exists_cons_of_ne_nil htr
    exact ⟨t, rfl, fun t' ht' => by simpa [currentTrack?, mkPlayer] using ht'.symm⟩
  · refine ⟨s.tracks.get ⟨s.index, hidx⟩, List.get?_eq_get hidx, fun t' ht' => ?_⟩
    have h2 : some t' = some (s.tracks.get ⟨s.index, hidx⟩) :=
      ht'.symm.trans (List.get?_eq_get hidx)
    exact Option.some.inj h2

/-- Witness for `construction_unvalidated` at the hard-coded playlist and its
initial state. -/
theorem construction_unvalidated_witness :
    (∃! t, currentTrack? (mkPlayer defaultTracks) = some t) ∧
    runLoadEffect (mkPlayer []) = .error "TypeError: tracks[index] is undefined" :=
  ⟨(construction_unvalidated defaultTracks (by decide) (mkPlayer defaultTracks)
      (by decide)).1,
   (construction_unvalidated defaultTracks (by decide) (mkPlayer defaultTracks)
      (by decide)).2.2⟩

/-- C8: `togglePlay` issued while the adapter is paused sets status to
loading and issues exactly one `play()` command; when that command rejects,
the catch branch reverts the status to paused without issuing any further
adapter command (no retry) and without touching any other field of the
snapshot — the failure is observable only through `status`. -/
theorem togglePlay_reject_reverts (s : PlayerState) :
    (togglePlayStart true s).1 = { s with status := .loading } ∧
    (togglePlayStart true s).2 = [.play] ∧
    onPlayRejected (togglePlayStart true s).1 = ({ s with status := .paused }, []) ∧
    (togglePlayStart true s).2 ++ (onPlayRejected (togglePlayStart true s).1).2 = [.play] :=
  ⟨rfl, rfl, rfl, rfl⟩

/-- Counterexample to C9: at a concrete repeating state the `ended` handler
performs `seek(0)`, `play()` and a single status write straight to
`playing`; it never writes `loading`, contradicting the claimed
loading-then-playing transition. -/
theorem ended_repeat_skips_loading :
    eventActions { mkPlayer defaultTracks with isRepeat := true, status := .playing, gen := 1 } [] .ended =
      [.adapter (.seek 0), .adapter .play, .setStatus .playing] ∧
    HandlerAct.setStatus .loading ∉
      eventActions { mkPlayer defaultTracks with isRepeat := true, status := .playing, gen := 1 } [] .ended := by
  refine ⟨rfl, ?_⟩
  intro hmem
  simp [eventActions] at hmem

/-- C9 (amended): on `ended` with repeat on, the controller issues `seek(0)`
then `play()` on the same track — the index, the generation counter and every
field except `status` are unchanged and no `load` is issued — and sets the
status directly to `playing` without passing through `loading`; with repeat
off (and shuffle off) it advances to the next sequential track, so for the
two-track queue `ended` at index 0 activates index 1. -/
theorem ended_semantics (s : PlayerState) (draws : List Nat) :
    (s.isRepeat = true →
      handleEvent s.gen .ended draws s = ({ s with status := .playing }, [.seek 0, .play]) ∧
      HandlerAct.setStatus .loading ∉ eventActions s draws .ended) ∧
    (s.isRepeat = false → s.isShuffle = false →
      handleEvent s.gen .ended draws s =
        ({ s with index := (s.index + 1) % s.tracks.length }, [])) := by
  constructor
  · intro hrep
    constructor
    · rw [handleEvent, if_pos rfl, eventActions, if_pos hrep]
      rfl
    · intro hmem
      rw [eventActions, if_pos hrep] at hmem
      simp at hmem
  · intro hrep hsh
    rw [handleEvent, if_pos rfl, eventActions, if_neg (by rw [hrep]; simp),
      nextIndex, if_neg (by rw [hsh]; simp)]
    rfl

/-- Witness for `ended_semantics`: repeat on at the concrete state, and
repeat off on the fresh two-track player where `ended` at index 0 yields
index 1. -/
theorem ended_semantics_witness :
    handleEvent 1 .ended [] { mkPlayer defaultTracks with isRepeat := true, status := .playing, gen := 1 } =
      ({ mkPlayer defaultTracks with isRepeat := true, status := .playing, gen := 1 }, [.seek 0, .play]) ∧
    handleEvent 0 .ended [] (mkPlayer defaultTracks) =
      ({ mkPlayer defaultTracks with index := (0 + 1) % 2 }, []) := by
  constructor
  · exact ((ended_semantics { mkPlayer defaultTracks with isRepeat := true, status := .playing, gen := 1 } []).1 rfl).1
  · exact (ended_semantics (mkPlayer defaultTracks) []).2 rfl rfl

/-- C10: toggling repeat flips a dependency of the track-load effect
(`[index, track.audioUrl, isRepeat]`), so React re-runs the whole load
routine for the unchanged current track: the re-run sets status to loading,
resets `currentTime` and `duration` to 0, bumps the listener generation and
loads the very same `audioUrl` again, even though the index did not change. -/
theorem toggleRepeat_reloads (s : PlayerState) (t : Track)
    (hc : currentTrack? s = some t) :
    (toggleRepeat s).index = s.index ∧
    currentTrack? (toggleRepeat s) = some t ∧
    effectDeps (toggleRepeat s) ≠ effectDeps s ∧
    reactEffectStep s (toggleRepeat s) =
      .ok ({ s with isRepeat := !s.isRepeat, status := .loading, current := 0, duration := 0, gen := s.gen + 1 },
           [.load t.audioUrl]) := by
  have hc' : currentTrack? (toggleRepeat s) = some t := hc
  have hdeps : effectDeps (toggleRepeat s) ≠ effectDeps s := by
    rw [effectDeps, effectDeps, hc, hc']
    simp [toggleRepeat]
  refine ⟨rfl, hc', hdeps, ?_⟩
  rw [reactEffectStep, if_pos hdeps, runLoadEffect, hc']
  rfl

/-- Witness for `toggleRepeat_reloads` on the fresh two-track player: repeat
toggled, the effect re-runs and re-loads the same first source. -/
theorem toggleRepeat_reloads_witness :
    currentTrack? (toggleRepeat (mkPlayer defaultTracks)) = some { id := "t1", title := "Awesome Song Title", artist := "Amazing Artist", audioUrl := "https://cdn.pixabay.com/download/audio/2022/03/15/audio_2b1fe7a2ab.mp3?filename=future-bass-logo-19442.mp3" } ∧
    reactEffectStep (mkPlayer defaultTracks) (toggleRepeat (mkPlayer defaultTracks)) =
      .ok ({ mkPlayer defaultTracks with isRepeat := true, status := .loading, current := 0, duration := 0, gen := 1 },
           [.load "https://cdn.pixabay.com/download/audio/2022/03/15/audio_2b1fe7a2ab.mp3?filename=future-bass-logo-19442.mp3"]) := by
  have h := toggleRepeat_reloads (mkPlayer defaultTracks)
      { id := "t1", title := "Awesome Song Title", artist := "Amazing Artist", audioUrl := "https://cdn.pixabay.com/download/audio/2022/03/15/audio_2b1fe7a2ab.mp3?filename=future-bass-logo-19442.mp3" }
      rfl
  exact ⟨h.2.1, h.2.2.2⟩
